import Mathlib

/-!
Verification of the MetaMask inpage provider (src/index.js and the bundled
utils module) against its natural-language specification.  The JavaScript
source is shallowly embedded: each stateful handler becomes a pure function
from an explicit state (and input) to a new state plus the list of events it
emits, and JavaScript values are modelled by small inductive types that keep
the distinctions the code observes (undefined vs null, truthiness, typeof,
Array.isArray, property access).
-/

namespace InpageProvider

/-- Model of a JavaScript value as far as `send` inspects it: `undefined`,
`null`, booleans, numbers, strings, arrays, and plain objects (association
lists of string keys). -/
inductive JsValue where
  | undef
  | nullv
  | boolv (b : Bool)
  | num (n : Int)
  | str (s : String)
  | arr (xs : List JsValue)
  | obj (fields : List (String × JsValue))

/-- `Array.isArray(v)`. -/
def isArray : JsValue → Bool
  | JsValue.arr _ => true
  | _ => false

/-- `typeof v === 'object'`: true for plain objects, arrays and (famously)
`null`. -/
def typeofIsObject : JsValue → Bool
  | JsValue.obj _ => true
  | JsValue.arr _ => true
  | JsValue.nullv => true
  | _ => false

/-- Field lookup inside an object literal: first binding wins; a missing key
reads as `undefined`. -/
def lookupField : List (String × JsValue) → String → JsValue
  | [], _ => JsValue.undef
  | (k, v) :: rest, key => if k = key then v else lookupField rest key

/-- JavaScript property access `v[key]`.  Reading a property of `null` or
`undefined` throws a TypeError, modelled by `none`; any other non-object
value autoboxes and the (absent) property reads as `undefined`.  Exotic
own-properties on arrays/primitives are not modelled: the provider never
creates them. -/
def getField : JsValue → String → Option JsValue
  | JsValue.obj fields, key => some (lookupField fields key)
  | JsValue.arr _, _ => some JsValue.undef
  | JsValue.str _, _ => some JsValue.undef
  | JsValue.num _, _ => some JsValue.undef
  | JsValue.boolv _, _ => some JsValue.undef
  | JsValue.nullv, _ => none
  | JsValue.undef, _ => none

/-- `v !== undefined`. -/
def jsDefined : JsValue → Bool
  | JsValue.undef => false
  | _ => true

/-- Possible synchronous outcomes of `MetamaskInpageProvider.prototype.send`:
the two synchronous throws, the deprecated `_sendSync` branch, the
`_requestAccounts` dispatch, and the ordinary `_sendAsync` dispatch.  Only
the last three ever hand a message to the RPC engine / transport. -/
inductive SendOutcome where
  | thrownInvalidParams
  | thrownTypeError
  | sendSync (payload : JsValue)
  | requestAccounts
  | dispatchAsync (payload : JsValue)

/-- The four method names routed to `_sendSync` when `send` receives a bare
payload object (src/index.js lines 267-274). -/
def syncMethods : List String :=
  ["eth_accounts", "eth_coinbase", "eth_uninstallFilter", "net_version"]

/-- The "wrap params in array out of kindness" step of `send`
(src/index.js lines 244-246). -/
def wrapParams (params : JsValue) : JsValue :=
  match params with
  | JsValue.arr xs => JsValue.arr xs
  | p => JsValue.arr [p]

/-- Does `[...syncMethods].includes(payload.method)` hold?  `includes` uses
strict equality, so only a string value can match. -/
def isSyncMethod : JsValue → Bool
  | JsValue.str s => syncMethods.contains s
  | _ => false

/-- The typecheck and dispatch tail of `send` (src/index.js lines 278-302):
`Array.isArray(payload) || typeof payload !== 'object' ||
typeof payload.method !== 'string'` throws the invalid-params error
(short-circuit order preserved: a `null` payload passes the `typeof` test and
then crashes with a TypeError on the `payload.method` access), then
`eth_requestAccounts` is routed to `_requestAccounts`, everything else to
`_sendAsync`. -/
def typecheckAndDispatch (payload : JsValue) : SendOutcome :=
  if isArray payload then SendOutcome.thrownInvalidParams
  else if !typeofIsObject payload then SendOutcome.thrownInvalidParams
  else
    match getField payload "method" with
    | none => SendOutcome.thrownTypeError
    | some (JsValue.str m) =>
        if m = "eth_requestAccounts" then SendOutcome.requestAccounts
        else SendOutcome.dispatchAsync payload
    | some _ => SendOutcome.thrownInvalidParams

/-- `MetamaskInpageProvider.prototype.send` (src/index.js lines 237-302).
With `params !== undefined` the payload object is built from the method name
and the (array-wrapped) params; with a lone string a payload with
`params: undefined` is built; with a lone non-string the argument itself is
the payload, and the deprecated synchronous methods are routed to
`_sendSync` before the typecheck (the `payload.method` read there crashes on
a `null`/`undefined` payload). -/
def send (methodOrPayload params : JsValue) : SendOutcome :=
  if jsDefined params then
    typecheckAndDispatch
      (JsValue.obj [("method", methodOrPayload), ("params", wrapParams params)])
  else
    match methodOrPayload with
    | JsValue.str m =>
        typecheckAndDispatch
          (JsValue.obj [("method", JsValue.str m), ("params", JsValue.undef)])
    | p =>
        match getField p "method" with
        | none => SendOutcome.thrownTypeError
        | some m =>
            if isSyncMethod m then SendOutcome.sendSync p
            else typecheckAndDispatch p

/-- Model of a primitive JavaScript value as pushed over the config-sync
channel (chain id and network version are strings in practice, unlock status
a boolean, and the cached values start out `undefined`). -/
inductive JsPrim where
  | undef
  | nullv
  | str (s : String)
  | boolv (b : Bool)
deriving DecidableEq, Repr

/-- The events the provider emits on its public surface (plus the deprecated
`chainIdChanged` alias).  `accountsChanged` carries the reconciled address
list, `close` the disconnect code and reason. -/
inductive Event where
  | chainChanged (v : JsPrim)
  | chainIdChanged (v : JsPrim)
  | networkChanged (v : JsPrim)
  | accountsChanged (xs : List String)
  | close (code : Nat) (reason : String)
deriving DecidableEq, Repr

/-! ### Config sync channel (publicConfigStore.subscribe handler) -/

/-- The cached config values the subscribe handler diffs against:
`this.chainId`, `this.networkVersion` (both `undefined` after construction)
and the module-level `_state.isUnlocked` (initially `false`). -/
structure ConfigState where
  chainId : JsPrim
  networkVersion : JsPrim
  isUnlocked : JsPrim
deriving DecidableEq, Repr

/-- The cached config values right after the constructor ran. -/
def initialConfigState : ConfigState :=
  { chainId := JsPrim.undef
    networkVersion := JsPrim.undef
    isUnlocked := JsPrim.boolv false }

/-- A state snapshot delivered on the config sync channel; `none` models a
field that is absent from the snapshot object (the `'field' in state`
test). -/
structure ConfigSnapshot where
  chainId : Option JsPrim
  networkVersion : Option JsPrim
  isUnlocked : Option JsPrim
deriving DecidableEq, Repr

/-- Result of one run of the config subscribe handler. -/
structure ConfigResult where
  state : ConfigState
  events : List Event
deriving DecidableEq, Repr

/-- The `publicConfigStore.subscribe` handler (src/index.js lines 77-95):
update `isUnlocked` silently when present and different; on a changed
`chainId` update the cache and emit `chainChanged` then the deprecated
`chainIdChanged` with the same payload; on a changed `networkVersion` update
and emit `networkChanged`.  Each comparison is JavaScript strict
inequality against the currently cached value. -/
def configSubscriber (st : ConfigState) (snap : ConfigSnapshot) : ConfigResult :=
  let st1 :=
    match snap.isUnlocked with
    | some u => if u ≠ st.isUnlocked then { st with isUnlocked := u } else st
    | none => st
  let chainStep : ConfigState × List Event :=
    match snap.chainId with
    | some c =>
        if c ≠ st1.chainId then
          ({ st1 with chainId := c }, [Event.chainChanged c, Event.chainIdChanged c])
        else (st1, [])
    | none => (st1, [])
  let netStep : ConfigState × List Event :=
    match snap.networkVersion with
    | some n =>
        if n ≠ chainStep.1.networkVersion then
          ({ chainStep.1 with networkVersion := n }, [Event.networkChanged n])
        else (chainStep.1, [])
    | none => (chainStep.1, [])
  { state := netStep.1, events := chainStep.2 ++ netStep.2 }

/-! ### Accounts reconciler (_handleAccountsChanged) -/

/-- The value of `this.selectedAddress`: `null`, `undefined`, or an address
string.  (`undefined` only ever shows up as the value of `accounts[0]` on an
empty list; the field itself starts at `null`.) -/
inductive JsAddr where
  | nullv
  | undefv
  | addr (s : String)
deriving DecidableEq, Repr

/-- The accounts-related provider state: the module-level `_state.accounts`
cache and the public `this.selectedAddress`. -/
structure AccountsState where
  accounts : List String
  selectedAddress : JsAddr
deriving DecidableEq, Repr

/-- Accounts state right after construction: `_state.accounts = []`,
`this.selectedAddress = null`. -/
def initialAccountsState : AccountsState :=
  { accounts := [], selectedAddress := JsAddr.nullv }

/-- The argument handed to `_handleAccountsChanged`: either an array of
address strings or some non-array value (the defensive branch). -/
inductive AccountsArg where
  | arr (xs : List String)
  | nonArray
deriving DecidableEq, Repr

/-- Result of one run of `_handleAccountsChanged`: the new state, the events
emitted, and whether the defensive non-array fault was logged. -/
structure ReconcileResult where
  state : AccountsState
  events : List Event
  loggedFault : Bool
deriving DecidableEq, Repr

/-- `accounts[0] || null`: the first element when it is truthy, `null` when
the list is empty or its first element is the empty string (the only falsy
string). -/
def jsFirstOrNull (xs : List String) : JsAddr :=
  match xs.head? with
  | some s => if s = "" then JsAddr.nullv else JsAddr.addr s
  | none => JsAddr.nullv

/-- `accounts[0]` as JavaScript reads it: `undefined` on an empty list. -/
def jsFirst (xs : List String) : JsAddr :=
  match xs.head? with
  | some s => JsAddr.addr s
  | none => JsAddr.undefv

/-- `MetamaskInpageProvider.prototype._handleAccountsChanged`
(src/index.js lines 559-586): replace a non-array input by `[]` and log;
emit `accountsChanged` and replace the cache exactly when the new array is
not deep-equal (`fast-deep-equal`, which on string arrays is length plus
element-wise equality) to `_state.accounts`; then assign
`this.selectedAddress = accounts[0] || null` whenever the cached value
strict-differs from `accounts[0]`.  (The trailing `window.web3` legacy write
mirrors `selectedAddress` and is not modelled.) -/
def handleAccountsChanged (st : AccountsState) (input : AccountsArg) : ReconcileResult :=
  let fault := match input with
    | AccountsArg.arr _ => false
    | AccountsArg.nonArray => true
  let accounts := match input with
    | AccountsArg.arr xs => xs
    | AccountsArg.nonArray => []
  let emitted :=
    if st.accounts ≠ accounts then
      ({ st with accounts := accounts }, [Event.accountsChanged accounts])
    else (st, ([] : List Event))
  let st2 :=
    if emitted.1.selectedAddress ≠ jsFirst accounts then
      { emitted.1 with selectedAddress := jsFirstOrNull accounts }
    else emitted.1
  { state := st2, events := emitted.2, loggedFault := fault }

/-! ### eth_accounts response path (createErrorMiddleware + _sendAsync) -/

/-- A JSON-RPC error object as far as the provider inspects it. -/
structure RpcErr where
  code : Int
  message : String
deriving DecidableEq, Repr

/-- The `result` field of a response: absent (`undefined`), an array of
address strings, or some other value with the given truthiness. -/
inductive ResVal where
  | undef
  | arr (xs : List String)
  | nonArr (truthy : Bool)
deriving DecidableEq, Repr

/-- A JSON-RPC response as the middleware stack sees it (id and jsonrpc
fields are irrelevant to the modelled behaviour). -/
structure RpcResponse where
  result : ResVal
  error : Option RpcErr
deriving DecidableEq, Repr

/-- `res.result || []` handed to `_handleAccountsChanged`: a falsy result
(`undefined`, or a falsy non-array) is replaced by the empty array; arrays
are always truthy and pass through; a truthy non-array value passes through
and hits the reconciler's defensive branch. -/
def resultOrEmpty : ResVal → AccountsArg
  | ResVal.undef => AccountsArg.arr []
  | ResVal.arr xs => AccountsArg.arr xs
  | ResVal.nonArr truthy => if truthy then AccountsArg.nonArray else AccountsArg.arr []

/-- The response pass of `createErrorMiddleware` (utils, src/index.js
lines 605-623): no error passes through; an `eth_accounts` request whose
response error has code 4100 has the error deleted and an empty-list result
substituted (logged as a warning); any other error is serialized, logged and
kept. -/
def errorMiddlewareResponse (method : String) (res : RpcResponse) : RpcResponse :=
  match res.error with
  | none => res
  | some e =>
      if method = "eth_accounts" ∧ e.code = 4100 then
        { result := ResVal.arr [], error := none }
      else res

/-- Modelled from the spec: the request-correlation engine
(`json-rpc-engine`, a collaborator whose code is not under src/) invokes the
`handle` callback with the response object's error after the middleware
return pass — a response whose error the error middleware cleared is
reported as a success (spec section 4.3: the cleared error means "callers are
never broken by that one specific denial"). -/
def engineCallbackError (res : RpcResponse) : Option RpcErr :=
  res.error

/-- What the caller's promise does, per `rpcPromiseCallback`
(src/index.js lines 21-25): reject when the callback error or the response
error is set, otherwise resolve with `response.result`. -/
inductive RpcOutcome where
  | resolvedRes (v : ResVal)
  | rejectedErr
deriving DecidableEq, Repr

/-- Result of delivering one `eth_accounts` response through the middleware
stack, the `_sendAsync` legacy callback and `rpcPromiseCallback`. -/
structure EthAccountsResult where
  outcome : RpcOutcome
  state : AccountsState
  events : List Event
deriving DecidableEq, Repr

/-- End-to-end processing of one `eth_accounts` response
(src/index.js lines 502-539 together with the error middleware): the error
middleware's response pass runs first, the engine reports the remaining
response error as the callback error, the legacy `eth_accounts` callback
clears a 4100 error once more (`err.code || res.error.code` equals the
error's own code here, since the engine hands the response's error object
back), feeds `res.result || []` to `_handleAccountsChanged`, and finally
invokes the caller's `rpcPromiseCallback` with the unchanged `err`. -/
def processEthAccountsResponse (st : AccountsState) (res : RpcResponse) :
    EthAccountsResult :=
  let res1 := errorMiddlewareResponse "eth_accounts" res
  let err := engineCallbackError res1
  let res2 :=
    match err with
    | some e =>
        if e.code = 4100 then { res1 with error := none, result := ResVal.arr [] }
        else res1
    | none => res1
  let rec1 := handleAccountsChanged st (resultOrEmpty res2.result)
  let outcome :=
    match err, res2.error with
    | none, none => RpcOutcome.resolvedRes res2.result
    | _, _ => RpcOutcome.rejectedErr
  { outcome := outcome, state := rec1.state, events := rec1.events }

/-! ### Connection lifecycle (_handleDisconnect) -/

/-- `_state.isConnected`: `undefined` before the deferred connect event,
then `true`, and `false` after a disconnect. -/
def closeReason : String := "MetaMask background communication error."

/-- `MetamaskInpageProvider.prototype._handleDisconnect`
(src/index.js lines 544-554): log the stream warning (not modelled), emit a
`close` event with code 1011 and the fixed reason exactly when
`_state.isConnected` is currently truthy, then set it to `false`. -/
def handleDisconnect (isConnected : Option Bool) : Option Bool × List Event :=
  (some false,
    if isConnected = some true then [Event.close 1011 closeReason] else [])

/-- A run of `n` consecutive disconnect signals (either critical channel
reporting an error or end-of-stream), with no intervening connection. -/
def runDisconnects : Option Bool → Nat → Option Bool × List Event
  | c, 0 => (c, [])
  | c, n + 1 =>
      let first := handleDisconnect c
      let rest := runDisconnects first.1 n
      (rest.1, first.2 ++ rest.2)

/-- Count of `close` events in an emission list. -/
def closeCount (evs : List Event) : Nat :=
  evs.countP fun e =>
    match e with
    | Event.close _ _ => true
    | _ => false

/-! ### Framed RPC channel: pending requests and disconnect

The provider pumps `jsonRpcConnection.stream` through the multiplexer
(src/index.js lines 123-129) and installs `_handleDisconnect` as the pump's
failure callback (lines 544-554).  The pending-request table itself lives in
the json-rpc connection layer (`json-rpc-middleware-stream` /
`json-rpc-engine`), which is not under src/, so it is modelled from the
spec below. -/

/-- Modelled from the spec: how a pending request is settled.  Spec sections
4.2 and 7 — a request still unanswered when the channel disconnects "must be
rejected with a 'disconnected' error" (a TransportError), never resolved by
an invented response and never silently dropped. -/
inductive ReqOutcome where
  | resolved (v : JsPrim)
  | rejectedTransport
deriving DecidableEq, Repr

/-- An observable event on the framed RPC channel: an outbound request being
issued (keyed by its process-unique remapped id), an inbound matching
response, or the transport/channel erroring or closing. -/
inductive ChanEvent where
  | issue (id : Nat)
  | respond (id : Nat) (v : JsPrim)
  | disconnect
deriving DecidableEq, Repr

/-- Modelled from the spec: the pending-request table of the framed RPC
channel (spec section 3, `PendingRequest`): requests are keyed by id,
destroyed when the matching response arrives (resolving the caller) or when
the channel disconnects (rejecting every still-pending caller with a
TransportError). -/
structure ChanState where
  pending : List Nat
  settled : List (Nat × ReqOutcome)
deriving DecidableEq, Repr

/-- The channel before any request was issued. -/
def initialChanState : ChanState :=
  { pending := [], settled := [] }

/-- Modelled from the spec: one transition of the framed RPC channel.
Issuing adds a pending entry; a response matching a pending id resolves and
removes it (an unmatched response settles nothing); a disconnect rejects
every pending request with a TransportError and empties the table. -/
def chanStep (st : ChanState) : ChanEvent → ChanState
  | ChanEvent.issue i => { st with pending := st.pending ++ [i] }
  | ChanEvent.respond i v =>
      if i ∈ st.pending then
        { pending := st.pending.erase i,
          settled := st.settled ++ [(i, ReqOutcome.resolved v)] }
      else st
  | ChanEvent.disconnect =>
      { pending := [],
        settled := st.settled ++ st.pending.map fun j => (j, ReqOutcome.rejectedTransport) }

/-- Run of the channel over a list of events. -/
def chanRun (st : ChanState) : List ChanEvent → ChanState
  | [] => st
  | e :: t => chanRun (chanStep st e) t

/-! ### The composite request-accounts flow (_requestAccounts) -/

/-- How one internal `_sendAsync` call settles for the composite flow:
resolved with a value, or rejected with an error value. -/
inductive CallResult where
  | ok (v : JsValue)
  | err (e : JsValue)

/-- The payload `_requestAccounts` issues for its accounts queries
(src/index.js lines 460-466 and 482-489). -/
def ethAccountsPayload : JsValue :=
  JsValue.obj [("method", JsValue.str "eth_accounts")]

/-- The payload `_requestAccounts` issues to request the accounts permission
(src/index.js lines 472-480). -/
def requestPermissionsPayload : JsValue :=
  JsValue.obj
    [("method", JsValue.str "wallet_requestPermissions"),
     ("params", JsValue.arr [JsValue.obj [("eth_accounts", JsValue.obj [])]])]

/-- `MetamaskInpageProvider.prototype._requestAccounts`
(src/index.js lines 457-496), as a function of the results of the up to
three RPC calls it can make.  Returns the list of payloads issued, in order,
and the value the returned promise resolves with.  A non-empty array from
the first `eth_accounts` query resolves immediately; a non-array or empty
result triggers `wallet_requestPermissions` followed by a second
`eth_accounts` query whose result is resolved; any rejection along the chain
is caught by the trailing `.catch`, logged, and resolves the promise with
`undefined`. -/
def requestAccountsFlow (first perm second : CallResult) : List JsValue × JsValue :=
  match first with
  | CallResult.err _ => ([ethAccountsPayload], JsValue.undef)
  | CallResult.ok v =>
      let needsRequest :=
        match v with
        | JsValue.arr xs => xs.isEmpty
        | _ => true
      if needsRequest then
        match perm with
        | CallResult.err _ =>
            ([ethAccountsPayload, requestPermissionsPayload], JsValue.undef)
        | CallResult.ok _ =>
            match second with
            | CallResult.ok v2 =>
                ([ethAccountsPayload, requestPermissionsPayload, ethAccountsPayload], v2)
            | CallResult.err _ =>
                ([ethAccountsPayload, requestPermissionsPayload, ethAccountsPayload],
                  JsValue.undef)
      else ([ethAccountsPayload], v)

/-- `MetamaskInpageProvider.prototype.enable` (src/index.js lines 385-392):
after a one-time deprecation warning it just returns
`this._requestAccounts()`. -/
def enableFlow (first perm second : CallResult) : List JsValue × JsValue :=
  requestAccountsFlow first perm second

/-! ### Theorems -/

/-- Normal form of one run of the config subscribe handler: every field
present in the snapshot ends up cached, and the events are exactly the
chain pair (when the chain id changed) followed by the network event (when
the network version changed). -/
theorem configSubscriber_eq (st : ConfigState) (snap : ConfigSnapshot) :
    configSubscriber st snap =
      { state :=
          { chainId := snap.chainId.getD st.chainId,
            networkVersion := snap.networkVersion.getD st.networkVersion,
            isUnlocked := snap.isUnlocked.getD st.isUnlocked },
        events :=
          (match snap.chainId with
            | some c =>
                if c ≠ st.chainId then [Event.chainChanged c, Event.chainIdChanged c]
                else []
            | none => []) ++
          (match snap.networkVersion with
            | some n =>
                if n ≠ st.networkVersion then [Event.networkChanged n] else []
            | none => []) } := by
  obtain ⟨oc, onv, ou⟩ := snap
  cases oc <;> cases onv <;> cases ou <;>
    simp only [configSubscriber, Option.getD_some, Option.getD_none] <;>
    split_ifs <;>
    simp_all [ConfigResult.mk.injEq, ConfigState.mk.injEq]

/-- C1: for every snapshot delivered on the config sync channel, a present
`chainId` differing from the cache updates the cache and emits
`chainChanged` plus the deprecated `chainIdChanged` alias with the same
payload; a differing `networkVersion` updates the cache and emits
`networkChanged`; a differing `isUnlocked` only updates the cache; and a
chain/network event is emitted only when the corresponding field is present
in the snapshot and strictly differs from the cached value (so never on an
unchanged field, including the very first snapshot), while no event kind
other than those three is ever emitted by this handler. -/
theorem c1_config_sync_events (st : ConfigState) (snap : ConfigSnapshot) :
    (∀ c, snap.chainId = some c → c ≠ st.chainId →
      (configSubscriber st snap).state.chainId = c ∧
      Event.chainChanged c ∈ (configSubscriber st snap).events ∧
      Event.chainIdChanged c ∈ (configSubscriber st snap).events) ∧
    (∀ n, snap.networkVersion = some n → n ≠ st.networkVersion →
      (configSubscriber st snap).state.networkVersion = n ∧
      Event.networkChanged n ∈ (configSubscriber st snap).events) ∧
    (∀ u, snap.isUnlocked = some u → u ≠ st.isUnlocked →
      (configSubscriber st snap).state.isUnlocked = u) ∧
    (∀ c, Event.chainChanged c ∈ (configSubscriber st snap).events →
      snap.chainId = some c ∧ c ≠ st.chainId) ∧
    (∀ c, Event.chainIdChanged c ∈ (configSubscriber st snap).events →
      snap.chainId = some c ∧ c ≠ st.chainId) ∧
    (∀ n, Event.networkChanged n ∈ (configSubscriber st snap).events →
      snap.networkVersion = some n ∧ n ≠ st.networkVersion) ∧
    (∀ e ∈ (configSubscriber st snap).events,
      (∃ c, e = Event.chainChanged c) ∨ (∃ c, e = Event.chainIdChanged c) ∨
        (∃ n, e = Event.networkChanged n)) := by
  rw [configSubscriber_eq]
  obtain ⟨oc, onv, ou⟩ := snap
  cases oc <;> cases onv <;> cases ou <;> simp <;> aesop

/-- Concrete instantiation of `c1_config_sync_events`: the very first
snapshot carrying a fresh chain id and network version and an unchanged
unlock flag updates the caches, emits both chain events and the network
event, and emits nothing for `isUnlocked`. -/
theorem c1_config_sync_events_witness :
    (JsPrim.str "0x1" ≠ initialConfigState.chainId ∧
      (configSubscriber initialConfigState
          ⟨some (JsPrim.str "0x1"), some (JsPrim.str "1"), some (JsPrim.boolv false)⟩).state.chainId
        = JsPrim.str "0x1") ∧
    Event.chainChanged (JsPrim.str "0x1") ∈
      (configSubscriber initialConfigState
        ⟨some (JsPrim.str "0x1"), some (JsPrim.str "1"), some (JsPrim.boolv false)⟩).events ∧
    Event.chainIdChanged (JsPrim.str "0x1") ∈
      (configSubscriber initialConfigState
        ⟨some (JsPrim.str "0x1"), some (JsPrim.str "1"), some (JsPrim.boolv false)⟩).events ∧
    Event.networkChanged (JsPrim.str "1") ∈
      (configSubscriber initialConfigState
        ⟨some (JsPrim.str "0x1"), some (JsPrim.str "1"), some (JsPrim.boolv false)⟩).events := by
  have h := c1_config_sync_events initialConfigState
    ⟨some (JsPrim.str "0x1"), some (JsPrim.str "1"), some (JsPrim.boolv false)⟩
  have hc := h.1 (JsPrim.str "0x1") rfl (by decide)
  have hn := h.2.1 (JsPrim.str "1") rfl (by decide)
  exact ⟨⟨by decide, hc.1⟩, hc.2.1, hc.2.2, hn.2⟩

/-- C9: delivering the same `{chainId, networkVersion}` snapshot twice in
succession, when both values differ from the cache, emits exactly one
`chainChanged` and exactly one `networkChanged` on the first delivery and
nothing at all on the repeated delivery, which also leaves the state
unchanged. -/
theorem c9_idempotent_config_snapshot (st : ConfigState) (c n : JsPrim)
    (hc : c ≠ st.chainId) (hn : n ≠ st.networkVersion) :
    ((configSubscriber st ⟨some c, some n, none⟩).events.count (Event.chainChanged c) = 1 ∧
      (configSubscriber st ⟨some c, some n, none⟩).events.count (Event.networkChanged n) = 1) ∧
    (configSubscriber (configSubscriber st ⟨some c, some n, none⟩).state
        ⟨some c, some n, none⟩).events = [] ∧
    (configSubscriber (configSubscriber st ⟨some c, some n, none⟩).state
        ⟨some c, some n, none⟩).state =
      (configSubscriber st ⟨some c, some n, none⟩).state := by
  simp only [configSubscriber_eq]
  simp [hc, hn, List.count_cons]

/-- Concrete instantiation of `c9_idempotent_config_snapshot` on the initial
cache and the snapshot `{chainId: "0x1", networkVersion: "1"}`. -/
theorem c9_idempotent_config_snapshot_witness :
    ((configSubscriber initialConfigState
        ⟨some (JsPrim.str "0x1"), some (JsPrim.str "1"), none⟩).events.count
        (Event.chainChanged (JsPrim.str "0x1")) = 1) ∧
    (configSubscriber
        (configSubscriber initialConfigState
          ⟨some (JsPrim.str "0x1"), some (JsPrim.str "1"), none⟩).state
        ⟨some (JsPrim.str "0x1"), some (JsPrim.str "1"), none⟩).events = [] := by
  have h := c9_idempotent_config_snapshot initialConfigState
    (JsPrim.str "0x1") (JsPrim.str "1") (by decide) (by decide)
  exact ⟨h.1.1, h.2.1⟩

/-- Order-sensitive element-wise characterization of equality of two string
lists: equal iff same length and pairwise-equal elements (this is what
`fast-deep-equal` computes on two arrays of strings). -/
theorem list_eq_iff_len_getElem (xs ys : List String) :
    xs = ys ↔ xs.length = ys.length ∧ ∀ i : Nat, xs[i]? = ys[i]? := by
  constructor
  · rintro rfl
    exact ⟨rfl, fun _ => rfl⟩
  · rintro ⟨-, h⟩
    exact List.ext_getElem? h

/-- The defensive replacement step of `_handleAccountsChanged`: the incoming
value when it is an array, the empty list otherwise. -/
def reconcileList : AccountsArg → List String
  | AccountsArg.arr xs => xs
  | AccountsArg.nonArray => []

/-- Normal form of one run of `_handleAccountsChanged`: the cache always
ends up holding the (defensively replaced) new list, `selectedAddress` is
left alone exactly when it strict-equals `accounts[0]` and otherwise becomes
`accounts[0] || null`, the event list is empty exactly when the new list
deep-equals the cached one, and the fault is logged exactly on a non-array
input. -/
theorem handleAccountsChanged_eq (st : AccountsState) (input : AccountsArg) :
    handleAccountsChanged st input =
      { state :=
          { accounts := reconcileList input,
            selectedAddress :=
              if st.selectedAddress = jsFirst (reconcileList input) then st.selectedAddress
              else jsFirstOrNull (reconcileList input) },
        events :=
          if st.accounts = reconcileList input then []
          else [Event.accountsChanged (reconcileList input)],
        loggedFault :=
          match input with
          | AccountsArg.arr _ => false
          | AccountsArg.nonArray => true } := by
  obtain ⟨acc, sel⟩ := st
  cases input with
  | arr xs =>
      by_cases h1 : acc = xs <;> by_cases h2 : sel = jsFirst xs <;>
        simp_all [handleAccountsChanged, reconcileList]
  | nonArray =>
      by_cases h1 : acc = [] <;>
        by_cases h2 : sel = jsFirst [] <;>
          simp_all [handleAccountsChanged, reconcileList]

/-- C3: the accounts reconciler replaces a non-array input by the empty list
and flags the logged fault exactly then (it never throws: it is a total
function); it emits `accountsChanged` carrying the new list and replaces the
cache if and only if the new list differs from the cached one, where
difference is order-sensitive element-wise (in)equality; and on a deep-equal
input neither the event nor the cache update occurs. -/
theorem c3_reconcile_dedup (st : AccountsState) (input : AccountsArg) :
    ((handleAccountsChanged st input).loggedFault = true ↔ input = AccountsArg.nonArray) ∧
    (∀ xs, input = AccountsArg.arr xs →
      (((handleAccountsChanged st input).events = [Event.accountsChanged xs] ∧
          (handleAccountsChanged st input).state.accounts = xs) ↔
        ¬ (xs.length = st.accounts.length ∧ ∀ i : Nat, xs[i]? = st.accounts[i]?))) ∧
    (input = AccountsArg.nonArray →
      (((handleAccountsChanged st input).events = [Event.accountsChanged []] ∧
          (handleAccountsChanged st input).state.accounts = []) ↔ st.accounts ≠ [])) ∧
    (∀ xs, input = AccountsArg.arr xs → xs = st.accounts →
      (handleAccountsChanged st input).events = [] ∧
      (handleAccountsChanged st input).state.accounts = st.accounts) := by
  rw [handleAccountsChanged_eq]
  refine ⟨?_, ?_, ?_, ?_⟩
  · cases input <;> simp [reconcileList]
  · rintro xs rfl
    rw [← list_eq_iff_len_getElem]
    by_cases h : st.accounts = xs <;> simp [reconcileList, h]
    tauto
  · rintro rfl
    by_cases h : st.accounts = [] <;> simp [reconcileList, h]
  · rintro xs rfl rfl
    simp [reconcileList]

/-- Concrete instantiation of `c3_reconcile_dedup`, matching the spec's
dedup example: reconciling `["0xA"]` twice emits `accountsChanged` exactly
once (the second call emits nothing), and reconciling `["0xB"]` afterwards
emits again. -/
theorem c3_reconcile_dedup_witness :
    (handleAccountsChanged initialAccountsState (AccountsArg.arr ["0xA"])).events
      = [Event.accountsChanged ["0xA"]] ∧
    (handleAccountsChanged
        (handleAccountsChanged initialAccountsState (AccountsArg.arr ["0xA"])).state
        (AccountsArg.arr ["0xA"])).events = [] ∧
    (handleAccountsChanged
        (handleAccountsChanged initialAccountsState (AccountsArg.arr ["0xA"])).state
        (AccountsArg.arr ["0xB"])).events = [Event.accountsChanged ["0xB"]] := by
  have h1 := (c3_reconcile_dedup initialAccountsState (AccountsArg.arr ["0xA"])).2.1
    ["0xA"] rfl
  have h2 := (c3_reconcile_dedup
    (handleAccountsChanged initialAccountsState (AccountsArg.arr ["0xA"])).state
    (AccountsArg.arr ["0xA"])).2.2.2 ["0xA"] rfl (by decide)
  have h3 := (c3_reconcile_dedup
    (handleAccountsChanged initialAccountsState (AccountsArg.arr ["0xA"])).state
    (AccountsArg.arr ["0xB"])).2.1 ["0xB"] rfl
  refine ⟨(h1.mpr ?_).1, h2.1, (h3.mpr ?_).1⟩
  · intro hconj
    exact absurd hconj.1 (by decide)
  · intro hconj
    exact absurd (hconj.2 0) (by decide)

/-- The value `accounts[0] || null` is never `undefined`. -/
theorem jsFirstOrNull_ne_undef (xs : List String) :
    jsFirstOrNull xs ≠ JsAddr.undefv := by
  unfold jsFirstOrNull
  cases xs.head? with
  | none => simp
  | some s => by_cases hs : s = "" <;> simp [hs]

/-- The value `accounts[0] || null` is never the empty address string. -/
theorem jsFirstOrNull_ne_empty (xs : List String) :
    jsFirstOrNull xs ≠ JsAddr.addr "" := by
  unfold jsFirstOrNull
  cases xs.head? with
  | none => simp
  | some s => by_cases hs : s = "" <;> simp [hs]

/-- The value `accounts[0] || null` is `null` or the first list element. -/
theorem jsFirstOrNull_spec (xs : List String) :
    jsFirstOrNull xs = JsAddr.nullv ∨
      ∃ s, xs.head? = some s ∧ jsFirstOrNull xs = JsAddr.addr s := by
  unfold jsFirstOrNull
  cases hh : xs.head? with
  | none => exact Or.inl rfl
  | some s =>
      by_cases hs : s = ""
      · left
        simp [hs]
      · right
        exact ⟨s, rfl, by simp [hs]⟩

/-- Reachability predicate for `selectedAddress`: it is never `undefined`
(it starts at `null` and every assignment is `accounts[0] || null`) and
never the empty string (a falsy first element is normalized to `null`). -/
def GoodAddr (st : AccountsState) : Prop :=
  st.selectedAddress ≠ JsAddr.undefv ∧ st.selectedAddress ≠ JsAddr.addr ""

/-- On a reachable state the reconciler's `selectedAddress` step always
lands on `accounts[0] || null`, whether or not the guard fired. -/
theorem selected_address_of_good (st : AccountsState) (xs : List String)
    (h : GoodAddr st) :
    (if st.selectedAddress = jsFirst xs then st.selectedAddress
      else jsFirstOrNull xs) = jsFirstOrNull xs := by
  by_cases hsel : st.selectedAddress = jsFirst xs
  · rw [if_pos hsel, hsel]
    cases xs with
    | nil => exact absurd hsel h.1
    | cons a t =>
        simp only [jsFirst, jsFirstOrNull, List.head?] at hsel ⊢
        rw [if_neg]
        intro ha
        rw [ha] at hsel
        exact h.2 hsel
  · rw [if_neg hsel]

/-- C4 (amended): from any reachable state, after every reconciler call the
cache equals the new list, `selectedAddress` equals the first element of the
new list when that element is truthy and `null` when the list is empty or
its first element is the (falsy) empty string, the state stays reachable,
and the invariant holds: `selectedAddress` is `null` or equal to the first
element of the cached accounts list.  The constructor's initial state is
reachable and satisfies the invariant with `null`. -/
theorem c4_selected_address_amended (st : AccountsState) (input : AccountsArg)
    (h : GoodAddr st) :
    (handleAccountsChanged st input).state.accounts = reconcileList input ∧
    (handleAccountsChanged st input).state.selectedAddress =
      jsFirstOrNull (reconcileList input) ∧
    GoodAddr (handleAccountsChanged st input).state ∧
    ((handleAccountsChanged st input).state.selectedAddress = JsAddr.nullv ∨
      ∃ s, (handleAccountsChanged st input).state.accounts.head? = some s ∧
        (handleAccountsChanged st input).state.selectedAddress = JsAddr.addr s) ∧
    (GoodAddr initialAccountsState ∧
      initialAccountsState.selectedAddress = JsAddr.nullv) := by
  rw [handleAccountsChanged_eq]
  simp only [selected_address_of_good st (reconcileList input) h]
  refine ⟨trivial, trivial, ⟨jsFirstOrNull_ne_undef _, jsFirstOrNull_ne_empty _⟩, ?_,
    ⟨⟨by decide, by decide⟩, rfl⟩⟩
  rcases jsFirstOrNull_spec (reconcileList input) with h0 | ⟨s, hs1, hs2⟩
  · exact Or.inl h0
  · exact Or.inr ⟨s, hs1, hs2⟩

/-- Counterexample to C4 as stated: reconciling the non-empty list `[""]`
(the remote side controls this input) leaves the cache non-empty with first
element `""`, yet `selectedAddress` becomes `null`, not the first element of
the list — `accounts[0] || null` discards a falsy first element. -/
theorem c4_falsy_first_counterexample :
    (handleAccountsChanged initialAccountsState (AccountsArg.arr [""])).state.accounts
      = [""] ∧
    (handleAccountsChanged initialAccountsState
        (AccountsArg.arr [""])).state.accounts.head? = some "" ∧
    (handleAccountsChanged initialAccountsState
        (AccountsArg.arr [""])).state.selectedAddress = JsAddr.nullv ∧
    JsAddr.nullv ≠ JsAddr.addr "" := by
  refine ⟨?_, ?_, ?_, by decide⟩ <;> decide

/-- Concrete instantiation of `c4_selected_address_amended`: from the
initial state, reconciling `["0xA"]` then `["0xB"]` moves `selectedAddress`
from `null` to `"0xA"` to `"0xB"`, as in the spec's example. -/
theorem c4_selected_address_amended_witness :
    initialAccountsState.selectedAddress = JsAddr.nullv ∧
    (handleAccountsChanged initialAccountsState (AccountsArg.arr ["0xA"])).state.selectedAddress
      = JsAddr.addr "0xA" ∧
    (handleAccountsChanged
        (handleAccountsChanged initialAccountsState (AccountsArg.arr ["0xA"])).state
        (AccountsArg.arr ["0xB"])).state.selectedAddress = JsAddr.addr "0xB" := by
  have hg : GoodAddr initialAccountsState := ⟨by decide, by decide⟩
  have h1 := c4_selected_address_amended initialAccountsState (AccountsArg.arr ["0xA"]) hg
  have h2 := c4_selected_address_amended
    (handleAccountsChanged initialAccountsState (AccountsArg.arr ["0xA"])).state
    (AccountsArg.arr ["0xB"]) h1.2.2.1
  refine ⟨rfl, ?_, ?_⟩
  · rw [h1.2.1]
    decide
  · rw [h2.2.1]
    decide

/-- C2: an `eth_accounts` response carrying a remote error with the
unauthorized code 4100 resolves the caller's promise with the empty list
(the error middleware clears the error and substitutes `[]`, so the engine
reports success), and it produces exactly one `accountsChanged` emission
carrying the empty list when the cached accounts list was non-empty — and
none when the cache was already empty. -/
theorem c2_unauthorized_resolves_empty (st : AccountsState) (rv : ResVal) (m : String) :
    (processEthAccountsResponse st
        { result := rv, error := some { code := 4100, message := m } }).outcome
      = RpcOutcome.resolvedRes (ResVal.arr []) ∧
    (st.accounts ≠ [] →
      (processEthAccountsResponse st
          { result := rv, error := some { code := 4100, message := m } }).events
        = [Event.accountsChanged []]) ∧
    (st.accounts = [] →
      (processEthAccountsResponse st
          { result := rv, error := some { code := 4100, message := m } }).events
        = []) := by
  have hmid : errorMiddlewareResponse "eth_accounts"
      { result := rv, error := some { code := 4100, message := m } } =
      { result := ResVal.arr [], error := none } := by
    simp [errorMiddlewareResponse]
  refine ⟨?_, ?_, ?_⟩ <;>
    simp [processEthAccountsResponse, hmid, engineCallbackError, resultOrEmpty,
      handleAccountsChanged_eq, reconcileList]

/-- Concrete instantiation of `c2_unauthorized_resolves_empty`: with one
cached account and a 4100 error response, the promise resolves with `[]` and
exactly one `accountsChanged []` is emitted. -/
theorem c2_unauthorized_resolves_empty_witness :
    (processEthAccountsResponse
        { accounts := ["0xA"], selectedAddress := JsAddr.addr "0xA" }
        { result := ResVal.undef,
          error := some { code := 4100, message := "unauthorized" } }).outcome
      = RpcOutcome.resolvedRes (ResVal.arr []) ∧
    (processEthAccountsResponse
        { accounts := ["0xA"], selectedAddress := JsAddr.addr "0xA" }
        { result := ResVal.undef,
          error := some { code := 4100, message := "unauthorized" } }).events
      = [Event.accountsChanged []] := by
  have h := c2_unauthorized_resolves_empty
    { accounts := ["0xA"], selectedAddress := JsAddr.addr "0xA" }
    ResVal.undef "unauthorized"
  exact ⟨h.1, h.2.1 (by decide)⟩

/-- Once disconnected, further disconnect signals leave the flag `false` and
emit nothing. -/
theorem runDisconnects_false (n : Nat) :
    runDisconnects (some false) n = (some false, []) := by
  induction n with
  | zero => rfl
  | succ k ih => simp [runDisconnects, handleDisconnect, ih]

/-- C6: a single disconnect signal always clears the connected flag and
emits the `close` event — carrying code 1011 and the fixed reason message —
exactly when the flag was currently set; across any number of consecutive
disconnect signals with no intervening connection, at most one `close` is
emitted in total (so a second disconnect signal never produces a second
close emission), and every emitted event is that `close` event. -/
theorem c6_close_at_most_once (c : Option Bool) (n : Nat) :
    (handleDisconnect c).1 = some false ∧
    ((handleDisconnect c).2 =
      if c = some true then [Event.close 1011 closeReason] else []) ∧
    runDisconnects (some false) n = (some false, []) ∧
    closeCount (runDisconnects c n).2 ≤ 1 ∧
    (∀ e ∈ (runDisconnects c n).2, e = Event.close 1011 closeReason) := by
  refine ⟨rfl, rfl, runDisconnects_false n, ?_, ?_⟩ <;>
    cases n with
    | zero => simp [runDisconnects, closeCount]
    | succ k =>
        simp only [runDisconnects, handleDisconnect, runDisconnects_false k]
        by_cases hc : c = some true <;>
          simp [hc, closeCount]

/-- Concrete instantiation of `c6_close_at_most_once`: two consecutive
disconnects from the connected state clear the flag and emit exactly one
`close` in total. -/
theorem c6_close_at_most_once_witness :
    (handleDisconnect (some true)).1 = some false ∧
    closeCount (runDisconnects (some true) 2).2 ≤ 1 ∧
    Event.close 1011 closeReason = Event.close 1011 closeReason := by
  have h := c6_close_at_most_once (some true) 2
  exact ⟨h.1, h.2.2.2.1, h.2.2.2.2 (Event.close 1011 closeReason) (by decide)⟩

/-- Running the channel over an appended trace is running it over each part
in turn. -/
theorem chanRun_append (st : ChanState) (t u : List ChanEvent) :
    chanRun st (t ++ u) = chanRun (chanRun st t) u := by
  induction t generalizing st with
  | nil => rfl
  | cons e t ih => simp [chanRun, ih]

/-- An id that is pending, or already rejected with a TransportError, stays
that way across any trace that contains no response for it (a disconnect in
the trace converts pending into rejected; settled entries are never
removed). -/
theorem chan_pending_or_rejected (t : List ChanEvent) (st : ChanState) (i : Nat)
    (h : i ∈ st.pending ∨ (i, ReqOutcome.rejectedTransport) ∈ st.settled)
    (hno : ∀ v, ChanEvent.respond i v ∉ t) :
    i ∈ (chanRun st t).pending ∨
      (i, ReqOutcome.rejectedTransport) ∈ (chanRun st t).settled := by
  induction t generalizing st with
  | nil => exact h
  | cons e t ih =>
      have hnoTail : ∀ v, ChanEvent.respond i v ∉ t := fun v hv =>
        hno v (List.mem_cons_of_mem _ hv)
      apply ih _ _ hnoTail
      cases e with
      | issue j =>
          rcases h with hp | hs
          · exact Or.inl (by simp [chanStep, hp])
          · exact Or.inr (by simp [chanStep, hs])
      | respond j v =>
          have hij : i ≠ j := by
            intro hji
            exact hno v (by rw [hji]; exact List.mem_cons_self _ _)
          rcases h with hp | hs
          · left
            simp only [chanStep]
            split
            · exact (List.mem_erase_of_ne hij).mpr hp
            · exact hp
          · right
            simp only [chanStep]
            split
            · exact List.mem_append_left _ hs
            · exact hs
      | disconnect =>
          rcases h with hp | hs
          · exact Or.inr (by
              simp only [chanStep]
              exact List.mem_append_right _ (List.mem_map.mpr ⟨i, hp, rfl⟩))
          · exact Or.inr (by
              simp only [chanStep]
              exact List.mem_append_left _ hs)

/-- C5 (modelled from the spec, sections 4.2 and 7): a request issued on the
RPC channel and not answered before the channel disconnects is settled by
the disconnect as rejected with the TransportError ("disconnected") outcome
— it is neither left pending (no hang) nor dropped without an outcome — and
after the disconnect no request is pending at all. -/
theorem c5_disconnect_rejects_pending (t u : List ChanEvent) (i : Nat)
    (hno : ∀ v, ChanEvent.respond i v ∉ u) :
    (i, ReqOutcome.rejectedTransport) ∈
      (chanRun initialChanState
        (t ++ ChanEvent.issue i :: (u ++ [ChanEvent.disconnect]))).settled ∧
    (chanRun initialChanState
      (t ++ ChanEvent.issue i :: (u ++ [ChanEvent.disconnect]))).pending = [] := by
  have hrun : chanRun initialChanState
      (t ++ ChanEvent.issue i :: (u ++ [ChanEvent.disconnect])) =
      chanStep (chanRun (chanStep (chanRun initialChanState t) (ChanEvent.issue i)) u)
        ChanEvent.disconnect := by
    rw [chanRun_append]
    show chanRun (chanStep (chanRun initialChanState t) (ChanEvent.issue i))
        (u ++ [ChanEvent.disconnect]) = _
    rw [chanRun_append]
    rfl
  rw [hrun]
  have hpend : i ∈ (chanStep (chanRun initialChanState t) (ChanEvent.issue i)).pending := by
    simp [chanStep]
  have hinv := chan_pending_or_rejected u
    (chanStep (chanRun initialChanState t) (ChanEvent.issue i)) i (Or.inl hpend) hno
  constructor
  · rcases hinv with hp | hs
    · simp only [chanStep]
      exact List.mem_append_right _ (List.mem_map.mpr ⟨i, hp, rfl⟩)
    · simp only [chanStep]
      exact List.mem_append_left _ hs
  · rfl

/-- Concrete instantiation of `c5_disconnect_rejects_pending`: request 1 is
issued, an unrelated response for id 2 arrives, then the transport errors —
request 1 is rejected with the TransportError outcome and nothing stays
pending. -/
theorem c5_disconnect_rejects_pending_witness :
    (1, ReqOutcome.rejectedTransport) ∈
      (chanRun initialChanState
        ([] ++ ChanEvent.issue 1 ::
          ([ChanEvent.respond 2 (JsPrim.str "0x0")] ++ [ChanEvent.disconnect]))).settled ∧
    (chanRun initialChanState
      ([] ++ ChanEvent.issue 1 ::
        ([ChanEvent.respond 2 (JsPrim.str "0x0")] ++ [ChanEvent.disconnect]))).pending = [] := by
  exact c5_disconnect_rejects_pending [] [ChanEvent.respond 2 (JsPrim.str "0x0")] 1
    (by
      intro v hv
      simp only [List.mem_singleton] at hv
      cases hv)

/-- A payload failing `send`'s typecheck: an array, or not of JavaScript
type `'object'`, or without a string-valued `method` property (a `null` or
`undefined` payload cannot even be read). -/
def payloadMalformed (p : JsValue) : Prop :=
  isArray p = true ∨ typeofIsObject p = false ∨
    ∀ s, getField p "method" ≠ some (JsValue.str s)

/-- Counterexample to C7 as stated: the payloads `undefined` and `null` are
malformed non-object inputs, and `send` does fail synchronously on them —
but by crashing on the `payload.method` property access with a TypeError,
not with the invalid-params error the claim requires. -/
theorem c7_null_payload_counterexample :
    send JsValue.undef JsValue.undef = SendOutcome.thrownTypeError ∧
    send JsValue.nullv JsValue.undef = SendOutcome.thrownTypeError ∧
    typeofIsObject JsValue.undef = false ∧
    SendOutcome.thrownTypeError ≠ SendOutcome.thrownInvalidParams :=
  ⟨rfl, rfl, rfl, fun h => nomatch h⟩

/-- C7 (amended): every malformed caller input to `send` fails synchronously
before any transport interaction (the outcome is one of the two throw
constructors, never a dispatch): with the invalid-params error whenever the
payload is an array, a non-object other than `null`/`undefined`, or an
object whose `method` is not a string — and with a property-access
TypeError when the payload is `null` or `undefined`.  In the two-argument
form (params supplied), a non-string method always throws the invalid-params
error. -/
theorem c7_validation_amended (p q : JsValue) :
    (payloadMalformed p → (∀ s, p ≠ JsValue.str s) →
      p ≠ JsValue.nullv → p ≠ JsValue.undef →
      send p JsValue.undef = SendOutcome.thrownInvalidParams) ∧
    ((p = JsValue.nullv ∨ p = JsValue.undef) →
      send p JsValue.undef = SendOutcome.thrownTypeError) ∧
    (jsDefined q = true → (∀ s, p ≠ JsValue.str s) →
      send p q = SendOutcome.thrownInvalidParams) := by
  refine ⟨?_, ?_, ?_⟩
  · intro hm hstr hnull hundef
    cases p with
    | undef => exact absurd rfl hundef
    | nullv => exact absurd rfl hnull
    | str s => exact absurd rfl (hstr s)
    | boolv b =>
        simp [send, jsDefined, getField, isSyncMethod, typecheckAndDispatch,
          isArray, typeofIsObject]
    | num n =>
        simp [send, jsDefined, getField, isSyncMethod, typecheckAndDispatch,
          isArray, typeofIsObject]
    | arr xs =>
        simp [send, jsDefined, getField, isSyncMethod, typecheckAndDispatch,
          isArray]
    | obj fields =>
        rcases hm with h | h | h
        · simp [isArray] at h
        · simp [typeofIsObject] at h
        · have hv : ∀ s, lookupField fields "method" ≠ JsValue.str s := by
            intro s hs
            exact h s (by simp [getField, hs])
          simp only [send, jsDefined, Bool.false_eq_true, if_false, getField]
          cases hlk : lookupField fields "method" with
          | str s => exact absurd hlk (by simpa using hv s)
          | undef =>
              simp [isSyncMethod, typecheckAndDispatch, isArray, typeofIsObject,
                getField, hlk]
          | nullv =>
              simp [isSyncMethod, typecheckAndDispatch, isArray, typeofIsObject,
                getField, hlk]
          | boolv b =>
              simp [isSyncMethod, typecheckAndDispatch, isArray, typeofIsObject,
                getField, hlk]
          | num n =>
              simp [isSyncMethod, typecheckAndDispatch, isArray, typeofIsObject,
                getField, hlk]
          | arr ys =>
              simp [isSyncMethod, typecheckAndDispatch, isArray, typeofIsObject,
                getField, hlk]
          | obj gs =>
              simp [isSyncMethod, typecheckAndDispatch, isArray, typeofIsObject,
                getField, hlk]
  · rintro (rfl | rfl) <;> rfl
  · intro hq hstr
    cases p <;>
      first
      | exact absurd rfl (hstr _)
      | simp [send, hq, typecheckAndDispatch, isArray, typeofIsObject,
          getField, lookupField]

/-- Concrete instantiation of `c7_validation_amended`: a bare number payload
throws the invalid-params error, a `null` payload throws the TypeError, and
a number in method position with params supplied throws the invalid-params
error. -/
theorem c7_validation_amended_witness :
    send (JsValue.num 7) JsValue.undef = SendOutcome.thrownInvalidParams ∧
    send JsValue.nullv JsValue.undef = SendOutcome.thrownTypeError ∧
    send (JsValue.num 1) (JsValue.num 2) = SendOutcome.thrownInvalidParams := by
  have h1 := c7_validation_amended (JsValue.num 7) JsValue.undef
  have h2 := c7_validation_amended JsValue.nullv JsValue.undef
  have h3 := c7_validation_amended (JsValue.num 1) (JsValue.num 2)
  exact ⟨h1.1 (Or.inr (Or.inl rfl)) (fun s hh => nomatch hh)
      (fun hh => nomatch hh) (fun hh => nomatch hh),
    h2.2.1 (Or.inl rfl),
    h3.2.2 rfl (fun s hh => nomatch hh)⟩

/-- C8: the composite request-accounts operation first queries
`eth_accounts`; a non-empty array result resolves immediately with exactly
that one request issued; an empty-array or non-array result triggers a
`wallet_requestPermissions` request for `eth_accounts` followed by a second
`eth_accounts` query, and the flow resolves with the re-queried result.  It
is the operation `send('eth_requestAccounts')` dispatches to, and `enable`
is the same flow. -/
theorem c8_request_accounts_flow (xs : List JsValue) (perm second : CallResult)
    (p v2 : JsValue) :
    (xs ≠ [] →
      requestAccountsFlow (CallResult.ok (JsValue.arr xs)) perm second
        = ([ethAccountsPayload], JsValue.arr xs)) ∧
    (requestAccountsFlow (CallResult.ok (JsValue.arr []))
        (CallResult.ok p) (CallResult.ok v2)
      = ([ethAccountsPayload, requestPermissionsPayload, ethAccountsPayload], v2)) ∧
    (isArray v2 = false →
      requestAccountsFlow (CallResult.ok v2) (CallResult.ok p) (CallResult.ok v2)
        = ([ethAccountsPayload, requestPermissionsPayload, ethAccountsPayload], v2)) ∧
    send (JsValue.str "eth_requestAccounts") JsValue.undef
      = SendOutcome.requestAccounts ∧
    enableFlow (CallResult.ok (JsValue.arr xs)) perm second
      = requestAccountsFlow (CallResult.ok (JsValue.arr xs)) perm second := by
  refine ⟨?_, rfl, ?_, rfl, rfl⟩
  · intro hxs
    cases xs with
    | nil => exact absurd rfl hxs
    | cons a t => simp [requestAccountsFlow]
  · intro hv
    cases v2 <;> simp_all [requestAccountsFlow, isArray]

/-- Concrete instantiation of `c8_request_accounts_flow`: a populated first
answer short-circuits with one request, an empty first answer runs the full
three-request flow and resolves with the re-queried list. -/
theorem c8_request_accounts_flow_witness :
    requestAccountsFlow (CallResult.ok (JsValue.arr [JsValue.str "0xA"]))
        (CallResult.ok (JsValue.arr [])) (CallResult.ok (JsValue.arr []))
      = ([ethAccountsPayload], JsValue.arr [JsValue.str "0xA"]) ∧
    requestAccountsFlow (CallResult.ok (JsValue.arr []))
        (CallResult.ok (JsValue.obj []))
        (CallResult.ok (JsValue.arr [JsValue.str "0xB"]))
      = ([ethAccountsPayload, requestPermissionsPayload, ethAccountsPayload],
          JsValue.arr [JsValue.str "0xB"]) := by
  have h1 := c8_request_accounts_flow [JsValue.str "0xA"]
    (CallResult.ok (JsValue.arr [])) (CallResult.ok (JsValue.arr []))
    (JsValue.obj []) (JsValue.arr [JsValue.str "0xB"])
  have h2 := c8_request_accounts_flow ([] : List JsValue)
    (CallResult.ok (JsValue.arr [])) (CallResult.ok (JsValue.arr []))
    (JsValue.obj []) (JsValue.arr [JsValue.str "0xB"])
  exact ⟨h1.1 (fun hh => nomatch hh), h2.2.1⟩

/-- C10: whenever `send` is called with a method string and a defined,
non-array params value, the params are wrapped in a one-element array before
the payload is built, and every payload `send` actually dispatches from such
a call carries exactly that one-element array in its `params` field (so the
outbound request always carries an array of parameters). -/
theorem c10_params_wrapping (s : String) (q : JsValue)
    (hdef : q ≠ JsValue.undef) (harr : isArray q = false) :
    wrapParams q = JsValue.arr [q] ∧
    (s ≠ "eth_requestAccounts" →
      send (JsValue.str s) q =
        SendOutcome.dispatchAsync
          (JsValue.obj
            [("method", JsValue.str s), ("params", JsValue.arr [q])])) ∧
    (∀ payload, send (JsValue.str s) q = SendOutcome.dispatchAsync payload →
      getField payload "params" = some (JsValue.arr [q])) := by
  have hjsdef : jsDefined q = true := by
    cases q
    · exact absurd rfl hdef
    all_goals rfl
  have hwrap : wrapParams q = JsValue.arr [q] := by
    cases q
    · exact absurd rfl hdef
    · rfl
    · rfl
    · rfl
    · rfl
    · simp [isArray] at harr
    · rfl
  have hdisp : ∀ t : String, t ≠ "eth_requestAccounts" →
      send (JsValue.str t) q =
        SendOutcome.dispatchAsync
          (JsValue.obj [("method", JsValue.str t), ("params", JsValue.arr [q])]) := by
    intro t ht
    simp [send, hjsdef, hwrap, typecheckAndDispatch, isArray, typeofIsObject,
      getField, lookupField, ht]
  refine ⟨hwrap, hdisp s, ?_⟩
  intro payload hp
  by_cases hse : s = "eth_requestAccounts"
  · have hreq : send (JsValue.str s) q = SendOutcome.requestAccounts := by
      simp [send, hjsdef, hwrap, typecheckAndDispatch, isArray, typeofIsObject,
        getField, lookupField, hse]
    rw [hreq] at hp
    exact absurd hp (fun hh => nomatch hh)
  · rw [hdisp s hse] at hp
    cases hp
    simp [getField, lookupField]

/-- Concrete instantiation of `c10_params_wrapping`: `send('eth_call', 5)`
wraps the number in a singleton array and dispatches the payload
`{method: 'eth_call', params: [5]}`. -/
theorem c10_params_wrapping_witness :
    wrapParams (JsValue.num 5) = JsValue.arr [JsValue.num 5] ∧
    send (JsValue.str "eth_call") (JsValue.num 5) =
      SendOutcome.dispatchAsync
        (JsValue.obj
          [("method", JsValue.str "eth_call"),
            ("params", JsValue.arr [JsValue.num 5])]) := by
  have h := c10_params_wrapping "eth_call" (JsValue.num 5)
    (fun hh => nomatch hh) rfl
  exact ⟨h.1, h.2.1 (by decide)⟩

end InpageProvider
